import Mathlib

/-!
Verification development for the `rs-deviceid` crate: a shallow embedding of
the identifier type, the UUID text parser/renderer it relies on, and the two
storage backends (POSIX file-backed, Windows registry-backed), with theorems
settling the specified properties.

Machine integers are modelled as `Nat`; a UUID value is its 16 bytes.
Error message strings carried by the Rust error variants are abstracted away:
only the variant is modelled, matching how the specification distinguishes
errors.
-/

instance {ε α : Type} [DecidableEq ε] [DecidableEq α] :
    DecidableEq (Except ε α) := fun x y =>
  match x, y with
  | .error a, .error b =>
    if h : a = b then isTrue (by rw [h])
    else isFalse (fun hh => h (Except.error.inj hh))
  | .ok a, .ok b =>
    if h : a = b then isTrue (by rw [h])
    else isFalse (fun hh => h (Except.ok.inj hh))
  | .error _, .ok _ => isFalse (fun hh => Except.noConfusion hh)
  | .ok _, .error _ => isFalse (fun hh => Except.noConfusion hh)

namespace DeviceId

/-- The crate error type (`Error` in lib.rs); message payloads abstracted. -/
inductive Error where
  | StorageError
  | BadUuidFormat
  | AlreadySet
deriving DecidableEq, Repr

/-! ### UUID text: parsing (uuid crate `try_parse` / `try_parse_ascii`) -/

/-- Value of one hex digit, accepting both cases, as in the `HEX_TABLE` of
the uuid crate (0xff meaning invalid is modelled by `none`). -/
def hexVal (c : Char) : Option Nat :=
  if '0' ≤ c ∧ c ≤ '9' then some (c.toNat - '0'.toNat)
  else if 'a' ≤ c ∧ c ≤ 'f' then some (c.toNat - 'a'.toNat + 10)
  else if 'A' ≤ c ∧ c ≤ 'F' then some (c.toNat - 'A'.toNat + 10)
  else none

/-- Parse consecutive pairs of hex digits into bytes; fails on a non-hex
character or an odd number of characters. -/
def parseHexBytes : List Char → Option (List Nat)
  | [] => some []
  | [_] => none
  | c1 :: c2 :: rest =>
    match hexVal c1, hexVal c2, parseHexBytes rest with
    | some h1, some h2, some tail => some ((h1 * 16 + h2) :: tail)
    | _, _, _ => none

/-- uuid crate `parse_simple`: exactly 32 hex digits. -/
def parse_simple (s : List Char) : Option (List Nat) :=
  if s.length = 32 then parseHexBytes s else none

/-- uuid crate `parse_hyphenated`: 36 characters with hyphens at indices
8, 13, 18 and 23 and hex digits elsewhere.  The crate reads the eight
4-digit groups at offsets 0, 4, 9, 14, 19, 24, 28, 32; dropping the four
hyphens and hex-parsing the remaining 32 characters pairwise is the same
computation. -/
def parse_hyphenated (s : List Char) : Option (List Nat) :=
  if s.length = 36 then
    if s[8]? = some '-' ∧ s[13]? = some '-' ∧ s[18]? = some '-' ∧
        s[23]? = some '-' then
      parseHexBytes (s.take 8 ++ (s.drop 9).take 4 ++ (s.drop 14).take 4 ++
        (s.drop 19).take 4 ++ s.drop 24)
    else none
  else none

/-- uuid crate `try_parse` / `try_parse_ascii`: dispatch on input length to
the simple (32), hyphenated (36), braced (38) and urn-prefixed (45) forms.
Both the byte-slice and string entry points of the crate run this same
match, so one definition models both. -/
def try_parse (s : List Char) : Option (List Nat) :=
  if s.length = 32 then parse_simple s
  else if s.length = 36 then parse_hyphenated s
  else if s.length = 38 then
    if s.head? = some '{' ∧ s.getLast? = some '}' then
      parse_hyphenated ((s.drop 1).dropLast)
    else none
  else if s.length = 45 then
    if s.take 9 = ("urn:uuid:".toList) then parse_hyphenated (s.drop 9)
    else none
  else none

/-! ### UUID text: rendering (uuid crate `Hyphenated::encode_lower`, used by
the `Display`/`LowerHex` impls that `format!("{id}")`, `{:x}` and
`to_string()` in this crate go through) -/

/-- Lowercase hex digit for a value below 16. -/
def hexDigitLower (n : Nat) : Char :=
  if n < 10 then Char.ofNat ('0'.toNat + n) else Char.ofNat ('a'.toNat + n - 10)

/-- Each byte as two lowercase hex digits (the simple 32-digit encoding). -/
def bytesToHexLower : List Nat → List Char
  | [] => []
  | b :: bs => hexDigitLower (b / 16) :: hexDigitLower (b % 16) ::
      bytesToHexLower bs

/-- Insert the four hyphens into a 32-digit simple encoding, after digits
8, 12, 16 and 20, exactly as `Hyphenated::encode_lower` lays the groups
out. -/
def hyphenate (t : List Char) : List Char :=
  t.take 8 ++ ('-' :: ((t.drop 8).take 4 ++ ('-' :: ((t.drop 12).take 4 ++
    ('-' :: ((t.drop 16).take 4 ++ ('-' :: t.drop 20)))))))

/-- Canonical lowercase hyphenated rendering of 16 bytes
(`Hyphenated::encode_lower`). -/
def renderUuid (u : List Nat) : List Char :=
  hyphenate (bytesToHexLower u)

/-- Uppercase hex digit for a value below 16 (input-variant constructor:
the crate renders lowercase only, but its parser accepts either case). -/
def hexDigitUpper (n : Nat) : Char :=
  if n < 10 then Char.ofNat ('0'.toNat + n) else Char.ofNat ('A'.toNat + n - 10)

/-- Each byte as two uppercase hex digits. -/
def bytesToHexUpper : List Nat → List Char
  | [] => []
  | b :: bs => hexDigitUpper (b / 16) :: hexDigitUpper (b % 16) ::
      bytesToHexUpper bs

/-- The uppercase hyphenated textual variant of a UUID value. -/
def upperText (u : List Nat) : List Char :=
  hyphenate (bytesToHexUpper u)

/-- The braced textual variant. -/
def bracedText (u : List Nat) : List Char :=
  '{' :: (renderUuid u ++ ['}'])

/-- The urn-prefixed textual variant. -/
def urnText (u : List Nat) : List Char :=
  ("urn:uuid:".toList) ++ renderUuid u

/-- The 32-digit unhyphenated (simple) textual variant. -/
def simpleText (u : List Nat) : List Char :=
  bytesToHexLower u

/-- Validity of a modelled UUID value: 16 bytes. -/
def ValidUuid (u : List Nat) : Prop :=
  u.length = 16 ∧ ∀ b ∈ u, b < 256

instance (u : List Nat) : Decidable (ValidUuid u) := by
  unfold ValidUuid; infer_instance

/-- The identifier type (`DevDeviceId` in lib.rs), wrapping the UUID value. -/
structure DevDeviceId where
  uuid : List Nat
deriving DecidableEq, Repr

/-- `Display for DevDeviceId` (lib.rs): `{:x}` on the wrapped Uuid, i.e. the
canonical lowercase hyphenated text. -/
def DevDeviceId.render (d : DevDeviceId) : List Char :=
  renderUuid d.uuid

/-! ### POSIX file-backed backend (unix.rs, linux target) -/

/-- The environment variables the POSIX backend consults. -/
structure UnixEnv where
  xdg_cache_home : Option String
  home : Option String
deriving DecidableEq, Repr

/-- `DEV_DEVICEID_PATH` constant of unix.rs. -/
def DEV_DEVICEID_PATH : String := "Microsoft/DeveloperTools"

/-- `FILENAME` constant of unix.rs. -/
def FILENAME : String := "deviceid"

/-- `PathBuf::push` of a relative component: join with the separator. -/
def pushPath (base component : String) : String := base ++ "/" ++ component

/-- `root_path` for the linux target (unix.rs): `XDG_CACHE_HOME` if set,
else `${HOME}/.cache`, else a `StorageError`. -/
def root_path (e : UnixEnv) : Except Error String :=
  match e.xdg_cache_home with
  | some p => .ok p
  | none =>
    match e.home with
    | some h => .ok (pushPath h ".cache")
    | none => .error .StorageError

/-- `folder_path` of unix.rs. -/
def folder_path (e : UnixEnv) : Except Error String :=
  (root_path e).map (fun p => pushPath p DEV_DEVICEID_PATH)

/-- `path` of unix.rs: the record file path. -/
def filePath (e : UnixEnv) : Except Error String :=
  (folder_path e).map (fun p => pushPath p FILENAME)

/-- Filesystem state: existing directories, files with their contents, and
the set of paths on which a read would fail with an I/O fault (modelling
the OS-level failures that `std::fs::read` can report). -/
structure FS where
  dirs : List String
  files : List (String × List Char)
  readFaults : List String
deriving DecidableEq, Repr

/-- Contents of the file at `p`, when it exists. -/
def FS.fileContents (fs : FS) (p : String) : Option (List Char) :=
  fs.files.lookup p

/-- `Path::exists`. -/
def FS.fileExists (fs : FS) (p : String) : Bool :=
  (fs.fileContents p).isSome

/-- `std::fs::read`: an I/O fault is a `StorageError` (as mapped by
unix.rs); reading a missing file also faults (retrieve never does this,
it checks existence first). -/
def fsRead (fs : FS) (p : String) : Except Error (List Char) :=
  if p ∈ fs.readFaults then .error .StorageError
  else
    match fs.fileContents p with
    | some data => .ok data
    | none => .error .StorageError

/-- `std::fs::write`: create or truncate, leaving the file with exactly the
given contents. -/
def fsWrite (fs : FS) (p : String) (data : List Char) : FS :=
  { fs with files := (p, data) :: fs.files.eraseP (fun e => e.1 == p) }

/-- All ancestor paths of `p` (successive slash-separated ancestor chains),
including `p` itself. -/
def pathPrefixes (p : String) : List String :=
  let comps := p.splitOn "/"
  (List.range comps.length).map
    (fun i => String.intercalate "/" (comps.take (i + 1)))

/-- `std::fs::create_dir_all`: create every missing ancestor directory; no
error when they already exist. -/
def create_dir_all (fs : FS) (p : String) : FS :=
  { fs with dirs := pathPrefixes p ++ fs.dirs }

namespace UnixStorage

/-- `UnixStorage::retrieve` (unix.rs): resolve the path; a missing file is
absent; otherwise read the contents and parse them with
`Uuid::try_parse_ascii`, a parse failure being `BadUuidFormat`. -/
def retrieve (e : UnixEnv) (fs : FS) : Except Error (Option DevDeviceId) :=
  match filePath e with
  | .error er => .error er
  | .ok p =>
    if fs.fileExists p then
      match fsRead fs p with
      | .error er => .error er
      | .ok data =>
        match try_parse data with
        | some u => .ok (some ⟨u⟩)
        | none => .error .BadUuidFormat
    else .ok none

/-- `UnixStorage::store` (unix.rs): create the folder path directories,
then fail with `AlreadySet` when the record file exists, else write the
rendered id as the complete contents.  The returned state keeps the
directories created even on the `AlreadySet` path, as on a real
filesystem. -/
def store (e : UnixEnv) (fs : FS) (id : DevDeviceId) :
    Except Error Unit × FS :=
  match folder_path e with
  | .error er => (.error er, fs)
  | .ok fp =>
    let fs1 := create_dir_all fs fp
    match filePath e with
    | .error er => (.error er, fs1)
    | .ok p =>
      if fs1.fileExists p then (.error .AlreadySet, fs1)
      else (.ok (), fsWrite fs1 p (renderUuid id.uuid))

end UnixStorage

/-- `DevDeviceId::get` (lib.rs): delegate to the backend retrieve. -/
def DevDeviceId.get (e : UnixEnv) (fs : FS) :
    Except Error (Option DevDeviceId) :=
  UnixStorage.retrieve e fs

/-- `DevDeviceId::get_or_generate` (lib.rs) over the POSIX backend, with
the freshly generated random id (`generate_id()`) passed in as `gen`:
retrieve; if present return it; otherwise store the generated id — the
`?` operator propagating any store error — and re-retrieve, returning the
persisted value or, if absent again, the generated one. -/
def DevDeviceId.get_or_generate (e : UnixEnv) (fs : FS) (gen : DevDeviceId) :
    Except Error DevDeviceId × FS :=
  match UnixStorage.retrieve e fs with
  | .error er => (.error er, fs)
  | .ok (some id) => (.ok id, fs)
  | .ok none =>
    match UnixStorage.store e fs gen with
    | (.error er, fs1) => (.error er, fs1)
    | (.ok _, fs1) =>
      match UnixStorage.retrieve e fs1 with
      | .error er => (.error er, fs1)
      | .ok o => (.ok (o.getD gen), fs1)

/-- The control flow of `DevDeviceId::get_or_generate` (lib.rs lines
64-73) abstracted over the outcomes of the backend calls: `r1` the first
`retrieve`, `st` the `store` of the generated id `gen`, `r2` the second
`retrieve`.  This exposes the behaviour under backends whose state can
change between calls (concurrent writers), which the single-state model
cannot exhibit. -/
def get_or_generate_flow (r1 : Except Error (Option DevDeviceId))
    (gen : DevDeviceId) (st : Except Error Unit)
    (r2 : Except Error (Option DevDeviceId)) : Except Error DevDeviceId :=
  match r1 with
  | .error er => .error er
  | .ok (some id) => .ok id
  | .ok none =>
    match st with
    | .error er => .error er
    | .ok _ =>
      match r2 with
      | .error er => .error er
      | .ok o => .ok (o.getD gen)

/-! ### Windows registry-backed backend (windows.rs) -/

/-- `REGISTRY_PATH` constant of windows.rs. -/
def REGISTRY_PATH : String := "SOFTWARE\\Microsoft\\DeveloperTools"

/-- `REGISTRY_KEY` constant of windows.rs. -/
def REGISTRY_KEY : String := "deviceid"

/-- Registry state under the per-user hive: keys (paths) each holding
named string values.  Mirrors both `RealWindowsRegistry` semantics and the
`MockWindowsRegistry` map-of-maps. -/
structure Registry where
  data : List (String × List (String × List Char))
deriving DecidableEq, Repr

/-- `open_read_key`: whether the key exists. -/
def Registry.openReadKey (r : Registry) (p : String) : Bool :=
  (r.data.lookup p).isSome

/-- `open_create_key` / `create_subkey_with_flags`: create the key when
missing; idempotent. -/
def Registry.openCreateKey (r : Registry) (p : String) : Registry :=
  if (r.data.lookup p).isSome then r else ⟨(p, []) :: r.data⟩

/-- `get_value`: the named value under the key, absent when either the key
or the value is missing. -/
def Registry.getValue (r : Registry) (p k : String) : Option (List Char) :=
  (r.data.lookup p).bind (fun kvs => kvs.lookup k)

/-- `set_value` / `RegSetValueEx`: create the key when missing and write
the named value, overwriting any previous value. -/
def Registry.setValue (r : Registry) (p k : String) (v : List Char) :
    Registry :=
  let kvs := (r.data.lookup p).getD []
  ⟨(p, (k, v) :: kvs.eraseP (fun e => e.1 == k)) ::
    r.data.eraseP (fun e => e.1 == p)⟩

/-- `retrieve_with_registry` (windows.rs): absent when the key is missing
or the value is missing; otherwise parse with `Uuid::try_parse`, a parse
failure being `BadUuidFormat`.  Underlying registry-access faults (mapped
by windows.rs to `StorageError`) are not modelled: the claims under
verification do not involve them. -/
def retrieve_with_registry (r : Registry) :
    Except Error (Option DevDeviceId) :=
  if r.openReadKey REGISTRY_PATH then
    match r.getValue REGISTRY_PATH REGISTRY_KEY with
    | some v =>
      match try_parse v with
      | some u => .ok (some ⟨u⟩)
      | none => .error .BadUuidFormat
    | none => .ok none
  else .ok none

/-- `store_with_registry` (windows.rs): open-or-create the key, then set
the value to the rendered id.  There is no read-check in the source: the
write is unconditional. -/
def store_with_registry (r : Registry) (id : DevDeviceId) :
    Except Error Unit × Registry :=
  let r1 := r.openCreateKey REGISTRY_PATH
  (.ok (), r1.setValue REGISTRY_PATH REGISTRY_KEY (renderUuid id.uuid))

end DeviceId

-- sanity checks (concrete evaluations)
example : DeviceId.try_parse ("550e8400-e29b-41d4-a716-446655440000".toList) =
    some [0x55, 0x0e, 0x84, 0x00, 0xe2, 0x9b, 0x41, 0xd4,
          0xa7, 0x16, 0x44, 0x66, 0x55, 0x44, 0x00, 0x00] := by decide

example : DeviceId.renderUuid [0x55, 0x0e, 0x84, 0x00, 0xe2, 0x9b, 0x41, 0xd4,
    0xa7, 0x16, 0x44, 0x66, 0x55, 0x44, 0x00, 0x00] =
    ("550e8400-e29b-41d4-a716-446655440000".toList) := by decide

example : DeviceId.try_parse ("not-a-uuid".toList) = none := by decide

example : DeviceId.try_parse
    ("550e8400-e29b-41d4-a716-446655440000".toList ++ ['\n']) = none := by
  decide

/-! ## Lemmas about the UUID text forms -/

namespace DeviceId

theorem hexVal_hexDigitLower (n : Nat) (h : n < 16) :
    hexVal (hexDigitLower n) = some n := by
  interval_cases n <;> decide

theorem hexVal_hexDigitUpper (n : Nat) (h : n < 16) :
    hexVal (hexDigitUpper n) = some n := by
  interval_cases n <;> decide

theorem length_bytesToHexLower (bs : List Nat) :
    (bytesToHexLower bs).length = 2 * bs.length := by
  induction bs with
  | nil => rfl
  | cons b bs ih =>
    simp only [bytesToHexLower, List.length_cons, ih]
    omega

theorem length_bytesToHexUpper (bs : List Nat) :
    (bytesToHexUpper bs).length = 2 * bs.length := by
  induction bs with
  | nil => rfl
  | cons b bs ih =>
    simp only [bytesToHexUpper, List.length_cons, ih]
    omega

theorem parseHexBytes_bytesToHexLower (bs : List Nat)
    (h : ∀ b ∈ bs, b < 256) :
    parseHexBytes (bytesToHexLower bs) = some bs := by
  induction bs with
  | nil => rfl
  | cons b bs ih =>
    have hb : b < 256 := h b (by simp)
    have h1 : b / 16 < 16 := by omega
    have h2 : b % 16 < 16 := by omega
    have ih' := ih (fun x hx => h x (by simp [hx]))
    simp only [bytesToHexLower, parseHexBytes, hexVal_hexDigitLower _ h1,
      hexVal_hexDigitLower _ h2, ih']
    have hbb : b / 16 * 16 + b % 16 = b := by omega
    rw [hbb]

theorem parseHexBytes_bytesToHexUpper (bs : List Nat)
    (h : ∀ b ∈ bs, b < 256) :
    parseHexBytes (bytesToHexUpper bs) = some bs := by
  induction bs with
  | nil => rfl
  | cons b bs ih =>
    have hb : b < 256 := h b (by simp)
    have h1 : b / 16 < 16 := by omega
    have h2 : b % 16 < 16 := by omega
    have ih' := ih (fun x hx => h x (by simp [hx]))
    simp only [bytesToHexUpper, parseHexBytes, hexVal_hexDigitUpper _ h1,
      hexVal_hexDigitUpper _ h2, ih']
    have hbb : b / 16 * 16 + b % 16 = b := by omega
    rw [hbb]

theorem getElem_append_cons_mid (a R : List Char) (x : Char) :
    (a ++ x :: R)[a.length]? = some x := by
  rw [List.getElem?_append_right (le_refl _)]
  simp

theorem getElem_append_cons_past (a R : List Char) (x : Char) (n : Nat)
    (h : a.length < n) :
    (a ++ x :: R)[n]? = R[n - a.length - 1]? := by
  rw [List.getElem?_append_right (le_of_lt h)]
  obtain ⟨m, hm⟩ : ∃ m, n - a.length = m + 1 := ⟨n - a.length - 1, by omega⟩
  rw [hm, List.getElem?_cons_succ]
  simp


theorem parse_hyphenated_parts (a b c d e : List Char)
    (ha : a.length = 8) (hb : b.length = 4) (hc : c.length = 4)
    (hd : d.length = 4) (he : e.length = 12) :
    parse_hyphenated
      (a ++ ('-' :: (b ++ ('-' :: (c ++ ('-' :: (d ++ ('-' :: e)))))))) =
      parseHexBytes (a ++ (b ++ (c ++ (d ++ e)))) := by
  set s := a ++ ('-' :: (b ++ ('-' :: (c ++ ('-' :: (d ++ ('-' :: e)))))))
    with hs
  have hlen : s.length = 36 := by simp [hs, ha, hb, hc, hd, he]
  have h8 : s[8]? = some '-' := by
    rw [hs, ← ha]; exact getElem_append_cons_mid ..
  have h13 : s[13]? = some '-' := by
    rw [hs, getElem_append_cons_past _ _ _ _ (by rw [ha]; norm_num)]
    rw [ha]; norm_num
    rw [← hb]; exact getElem_append_cons_mid ..
  have h18 : s[18]? = some '-' := by
    rw [hs, getElem_append_cons_past _ _ _ _ (by rw [ha]; norm_num)]
    rw [ha]; norm_num
    rw [getElem_append_cons_past _ _ _ _ (by rw [hb]; norm_num)]
    rw [hb]; norm_num
    rw [← hc]; exact getElem_append_cons_mid ..
  have h23 : s[23]? = some '-' := by
    rw [hs, getElem_append_cons_past _ _ _ _ (by rw [ha]; norm_num)]
    rw [ha]; norm_num
    rw [getElem_append_cons_past _ _ _ _ (by rw [hb]; norm_num)]
    rw [hb]; norm_num
    rw [getElem_append_cons_past _ _ _ _ (by rw [hc]; norm_num)]
    rw [hc]; norm_num
    rw [← hd]; exact getElem_append_cons_mid ..
  have e1 : s = (a ++ ['-']) ++
      (b ++ ('-' :: (c ++ ('-' :: (d ++ ('-' :: e)))))) := by
    rw [hs]; simp
  have e2 : s = ((a ++ ['-']) ++ (b ++ ['-'])) ++
      (c ++ ('-' :: (d ++ ('-' :: e)))) := by
    rw [hs]; simp
  have e3 : s = (((a ++ ['-']) ++ (b ++ ['-'])) ++ (c ++ ['-'])) ++
      (d ++ ('-' :: e)) := by
    rw [hs]; simp
  have e4 : s = ((((a ++ ['-']) ++ (b ++ ['-'])) ++ (c ++ ['-'])) ++
      (d ++ ['-'])) ++ e := by
    rw [hs]; simp
  have t8 : s.take 8 = a := by rw [hs]; exact List.take_left' ha
  have d9 : s.drop 9 = b ++ ('-' :: (c ++ ('-' :: (d ++ ('-' :: e))))) := by
    rw [e1]; exact List.drop_left' (by simp [ha])
  have t9 : (s.drop 9).take 4 = b := by rw [d9]; exact List.take_left' hb
  have d14 : s.drop 14 = c ++ ('-' :: (d ++ ('-' :: e))) := by
    rw [e2]; exact List.drop_left' (by simp [ha, hb])
  have t14 : (s.drop 14).take 4 = c := by rw [d14]; exact List.take_left' hc
  have d19 : s.drop 19 = d ++ ('-' :: e) := by
    rw [e3]; exact List.drop_left' (by simp [ha, hb, hc])
  have t19 : (s.drop 19).take 4 = d := by rw [d19]; exact List.take_left' hd
  have d24 : s.drop 24 = e := by
    rw [e4]; exact List.drop_left' (by simp [ha, hb, hc, hd])
  simp only [parse_hyphenated, hlen, h8, h13, h18, h23]
  norm_num
  rw [t8, t9, t14, t19, d24]

theorem parse_hyphenated_hyphenate (t : List Char) (ht : t.length = 32) :
    parse_hyphenated (hyphenate t) = parseHexBytes t := by
  have hp := parse_hyphenated_parts (t.take 8) ((t.drop 8).take 4)
    ((t.drop 12).take 4) ((t.drop 16).take 4) (t.drop 20)
    (by simp [ht]) (by simp [ht]) (by simp [ht]) (by simp [ht])
    (by simp [ht])
  unfold hyphenate
  rw [hp]
  congr 1
  have s1 : (t.drop 16).take 4 ++ t.drop 20 = t.drop 16 := by
    have h20 : t.drop 20 = (t.drop 16).drop 4 := by
      rw [List.drop_drop]
    rw [h20, List.take_append_drop]
  have s2 : (t.drop 12).take 4 ++ t.drop 16 = t.drop 12 := by
    have h16 : t.drop 16 = (t.drop 12).drop 4 := by
      rw [List.drop_drop]
    rw [h16, List.take_append_drop]
  have s3 : (t.drop 8).take 4 ++ t.drop 12 = t.drop 8 := by
    have h12 : t.drop 12 = (t.drop 8).drop 4 := by
      rw [List.drop_drop]
    rw [h12, List.take_append_drop]
  rw [s1, s2, s3, List.take_append_drop]

theorem length_hyphenate (t : List Char) (ht : t.length = 32) :
    (hyphenate t).length = 36 := by
  simp [hyphenate, ht]

theorem try_parse_renderUuid (u : List Nat) (hu : ValidUuid u) :
    try_parse (renderUuid u) = some u := by
  obtain ⟨hlen, hbound⟩ := hu
  have ht : (bytesToHexLower u).length = 32 := by
    rw [length_bytesToHexLower, hlen]
  have hh : (renderUuid u).length = 36 := by
    rw [renderUuid]; exact length_hyphenate _ ht
  simp only [try_parse, hh]
  norm_num
  rw [renderUuid, parse_hyphenated_hyphenate _ ht,
    parseHexBytes_bytesToHexLower u hbound]

theorem parse_hyphenated_renderUuid (u : List Nat) (hu : ValidUuid u) :
    parse_hyphenated (renderUuid u) = some u := by
  rw [renderUuid, parse_hyphenated_hyphenate _
    (by rw [length_bytesToHexLower, hu.1]),
    parseHexBytes_bytesToHexLower u hu.2]

theorem length_renderUuid (u : List Nat) (hlen : u.length = 16) :
    (renderUuid u).length = 36 := by
  rw [renderUuid]
  exact length_hyphenate _ (by rw [length_bytesToHexLower, hlen])

theorem try_parse_upperText (u : List Nat) (hu : ValidUuid u) :
    try_parse (upperText u) = some u := by
  obtain ⟨hlen, hbound⟩ := hu
  have ht : (bytesToHexUpper u).length = 32 := by
    rw [length_bytesToHexUpper, hlen]
  have hh : (upperText u).length = 36 := by
    rw [upperText]; exact length_hyphenate _ ht
  simp only [try_parse, hh]
  norm_num
  rw [upperText, parse_hyphenated_hyphenate _ ht,
    parseHexBytes_bytesToHexUpper u hbound]

theorem try_parse_bracedText (u : List Nat) (hu : ValidUuid u) :
    try_parse (bracedText u) = some u := by
  have hr36 := length_renderUuid u hu.1
  have hh : (bracedText u).length = 38 := by simp [bracedText, hr36]
  have hhd : (bracedText u).head? = some '{' := by simp [bracedText]
  have hbr : bracedText u = ('{' :: renderUuid u) ++ ['}'] := by
    rw [bracedText]; simp
  have hlast : (bracedText u).getLast? = some '}' := by
    rw [hbr, List.getLast?_concat]
  have hmid : ((bracedText u).drop 1).dropLast = renderUuid u := by
    simp [bracedText]
  simp only [try_parse, hh, hhd, hlast, hmid]
  norm_num
  exact parse_hyphenated_renderUuid u hu

theorem try_parse_urnText (u : List Nat) (hu : ValidUuid u) :
    try_parse (urnText u) = some u := by
  have hr36 := length_renderUuid u hu.1
  have hh : (urnText u).length = 45 := by simp [urnText, hr36]
  have htk : (urnText u).take 9 = ("urn:uuid:".toList) := by
    rw [urnText]; exact List.take_left' (by decide)
  have hdp : (urnText u).drop 9 = renderUuid u := by
    rw [urnText]; exact List.drop_left' (by decide)
  simp only [try_parse, hh, htk, hdp]
  norm_num
  exact parse_hyphenated_renderUuid u hu

theorem try_parse_simpleText (u : List Nat) (hu : ValidUuid u) :
    try_parse (simpleText u) = some u := by
  have ht : (simpleText u).length = 32 := by
    rw [simpleText, length_bytesToHexLower, hu.1]
  simp only [try_parse, ht]
  norm_num
  rw [parse_simple, if_pos ht, simpleText,
    parseHexBytes_bytesToHexLower u hu.2]

theorem hexDigitLower_ne_brace_u (n : Nat) (h : n < 16) :
    hexDigitLower n ≠ '{' ∧ hexDigitLower n ≠ 'u' := by
  interval_cases n <;> exact ⟨by decide, by decide⟩

theorem head?_renderUuid (b : Nat) (us : List Nat) :
    (renderUuid (b :: us)).head? = some (hexDigitLower (b / 16)) := by
  rw [renderUuid, hyphenate, bytesToHexLower,
    show (8 : Nat) = 7 + 1 from rfl, List.take_succ_cons]
  simp

theorem try_parse_render_append (u : List Nat) (hu : ValidUuid u)
    (suf : List Char) (hs : suf ≠ []) :
    try_parse (renderUuid u ++ suf) = none := by
  obtain ⟨hlen, hbound⟩ := hu
  have hr36 : (renderUuid u).length = 36 := length_renderUuid u hlen
  have hsuf : 0 < suf.length := List.length_pos.mpr hs
  have hslen : (renderUuid u ++ suf).length = 36 + suf.length := by
    simp [hr36]
  obtain ⟨b, us, hbus⟩ : ∃ b us, u = b :: us := by
    cases u with
    | nil => simp at hlen
    | cons b us => exact ⟨b, us, rfl⟩
  have hb16 : b / 16 < 16 := by
    have : b < 256 := hbound b (by rw [hbus]; simp)
    omega
  have hhd : (renderUuid u ++ suf).head? = some (hexDigitLower (b / 16)) := by
    rw [List.head?_append, hbus, head?_renderUuid]
    rfl
  have hne := hexDigitLower_ne_brace_u _ hb16
  rw [try_parse,
    if_neg (by rw [hslen]; omega),
    if_neg (by rw [hslen]; omega)]
  by_cases h38 : (renderUuid u ++ suf).length = 38
  · rw [if_pos h38, if_neg]
    rintro ⟨hcl, _⟩
    rw [hhd] at hcl
    exact hne.1 (Option.some.inj hcl)
  · rw [if_neg h38]
    by_cases h45 : (renderUuid u ++ suf).length = 45
    · rw [if_pos h45, if_neg]
      intro htk
      have h0 : (renderUuid u ++ suf)[0]? = some 'u' := by
        have hcg := congrArg (fun l => l[0]?) htk
        simp only at hcg
        rw [List.getElem?_take, if_pos (by norm_num)] at hcg
        rw [hcg]
        decide
      have h0' : (renderUuid u ++ suf).head? = (renderUuid u ++ suf)[0]? := by
        cases (renderUuid u ++ suf) <;> simp
      rw [h0', h0] at hhd
      exact hne.2 (Option.some.inj hhd.symm)
    · rw [if_neg h45]

/-! ## Lemmas about the storage models -/

theorem create_dir_all_fileContents (fs : FS) (p q : String) :
    (create_dir_all fs p).fileContents q = fs.fileContents q := rfl

theorem create_dir_all_fileExists (fs : FS) (p q : String) :
    (create_dir_all fs p).fileExists q = fs.fileExists q := rfl

theorem create_dir_all_readFaults (fs : FS) (p : String) :
    (create_dir_all fs p).readFaults = fs.readFaults := rfl

theorem fsWrite_fileContents_self (fs : FS) (p : String) (data : List Char) :
    (fsWrite fs p data).fileContents p = some data := by
  simp [fsWrite, FS.fileContents, List.lookup]

theorem fsWrite_readFaults (fs : FS) (p : String) (data : List Char) :
    (fsWrite fs p data).readFaults = fs.readFaults := rfl

theorem retrieve_eq_of_path (e : UnixEnv) (p : String)
    (hp : filePath e = .ok p) (fs : FS) :
    UnixStorage.retrieve e fs =
      if fs.fileExists p then
        match fsRead fs p with
        | .error er => .error er
        | .ok data =>
          match try_parse data with
          | some u => .ok (some ⟨u⟩)
          | none => .error .BadUuidFormat
      else .ok none := by
  rw [UnixStorage.retrieve, hp]

theorem retrieve_absent (e : UnixEnv) (p : String) (fs : FS)
    (hp : filePath e = .ok p) (hne : fs.fileContents p = none) :
    UnixStorage.retrieve e fs = .ok none := by
  rw [retrieve_eq_of_path e p hp fs]
  simp [FS.fileExists, hne]

theorem retrieve_found (e : UnixEnv) (p : String) (fs : FS)
    (data : List Char) (u : List Nat)
    (hp : filePath e = .ok p) (hc : fs.fileContents p = some data)
    (hnf : p ∉ fs.readFaults) (hparse : try_parse data = some u) :
    UnixStorage.retrieve e fs = .ok (some ⟨u⟩) := by
  rw [retrieve_eq_of_path e p hp fs]
  simp only [FS.fileExists, hc, Option.isSome_some, if_true]
  rw [fsRead, if_neg hnf, hc]
  simp [hparse]

theorem retrieve_badformat (e : UnixEnv) (p : String) (fs : FS)
    (data : List Char)
    (hp : filePath e = .ok p) (hc : fs.fileContents p = some data)
    (hnf : p ∉ fs.readFaults) (hparse : try_parse data = none) :
    UnixStorage.retrieve e fs = .error .BadUuidFormat := by
  rw [retrieve_eq_of_path e p hp fs]
  simp only [FS.fileExists, hc, Option.isSome_some, if_true]
  rw [fsRead, if_neg hnf, hc]
  simp [hparse]

theorem retrieve_fault (e : UnixEnv) (p : String) (fs : FS) (data : List Char)
    (hp : filePath e = .ok p) (hc : fs.fileContents p = some data)
    (hf : p ∈ fs.readFaults) :
    UnixStorage.retrieve e fs = .error .StorageError := by
  rw [retrieve_eq_of_path e p hp fs]
  simp only [FS.fileExists, hc, Option.isSome_some, if_true]
  rw [fsRead, if_pos hf]

theorem filePath_of_folder (e : UnixEnv) (fp : String)
    (hfp : folder_path e = .ok fp) :
    filePath e = .ok (pushPath fp FILENAME) := by
  rw [filePath, hfp]; rfl

theorem store_fresh (e : UnixEnv) (fp : String) (fs : FS) (id : DevDeviceId)
    (hfp : folder_path e = .ok fp)
    (hne : fs.fileContents (pushPath fp FILENAME) = none) :
    UnixStorage.store e fs id =
      (.ok (), fsWrite (create_dir_all fs fp) (pushPath fp FILENAME)
        (renderUuid id.uuid)) := by
  rw [UnixStorage.store, hfp]
  simp only [filePath_of_folder e fp hfp]
  rw [if_neg]
  simp [FS.fileExists, create_dir_all_fileContents, hne]

theorem store_already (e : UnixEnv) (fp : String) (fs : FS) (id : DevDeviceId)
    (data : List Char)
    (hfp : folder_path e = .ok fp)
    (hc : fs.fileContents (pushPath fp FILENAME) = some data) :
    UnixStorage.store e fs id = (.error .AlreadySet, create_dir_all fs fp) := by
  rw [UnixStorage.store, hfp]
  simp only [filePath_of_folder e fp hfp]
  rw [if_pos]
  simp [FS.fileExists, create_dir_all_fileContents, hc]

theorem getValue_setValue_self (r : Registry) (p k : String) (v : List Char) :
    (r.setValue p k v).getValue p k = some v := by
  simp [Registry.setValue, Registry.getValue, List.lookup]

/-! ## Claims -/

/-- Claim C7: for every constructed identifier x (a 16-byte UUID value),
rendering produces the canonical lowercase hyphenated text, and parsing
that text back yields an identifier equal to x (round-trip law). -/
theorem claim_C7_roundtrip (x : DevDeviceId) (hx : ValidUuid x.uuid) :
    (try_parse x.render).map DevDeviceId.mk = some x := by
  rw [DevDeviceId.render, try_parse_renderUuid x.uuid hx]
  rfl

/-- Witness for C7 at a concrete identifier. -/
theorem claim_C7_witness :
    ValidUuid [0x55, 0x0e, 0x84, 0x00, 0xe2, 0x9b, 0x41, 0xd4,
      0xa7, 0x16, 0x44, 0x66, 0x55, 0x44, 0x00, 0x00] ∧
    (try_parse (DevDeviceId.mk [0x55, 0x0e, 0x84, 0x00, 0xe2, 0x9b, 0x41,
      0xd4, 0xa7, 0x16, 0x44, 0x66, 0x55, 0x44, 0x00, 0x00]).render).map
      DevDeviceId.mk = some (DevDeviceId.mk [0x55, 0x0e, 0x84, 0x00, 0xe2,
      0x9b, 0x41, 0xd4, 0xa7, 0x16, 0x44, 0x66, 0x55, 0x44, 0x00, 0x00]) :=
  ⟨by decide, claim_C7_roundtrip ⟨[0x55, 0x0e, 0x84, 0x00, 0xe2, 0x9b, 0x41,
    0xd4, 0xa7, 0x16, 0x44, 0x66, 0x55, 0x44, 0x00, 0x00]⟩ (by decide)⟩

/-- Claim C6: on Linux the record path is the cache-root variable
XDG_CACHE_HOME if set, else HOME/.cache, followed by
Microsoft/DeveloperTools/deviceid; with home P and no override the record
path is P/.cache/Microsoft/DeveloperTools/deviceid; when neither variable
is set every operation (retrieve and store) fails with StorageError. -/
theorem claim_C6_location (e : UnixEnv) :
    (∀ x, e.xdg_cache_home = some x →
      filePath e = .ok (x ++ "/Microsoft/DeveloperTools/deviceid")) ∧
    (∀ P, e.xdg_cache_home = none → e.home = some P →
      filePath e = .ok (P ++ "/.cache/Microsoft/DeveloperTools/deviceid")) ∧
    (e.xdg_cache_home = none → e.home = none → ∀ fs id,
      UnixStorage.retrieve e fs = .error .StorageError ∧
      (UnixStorage.store e fs id).1 = .error .StorageError) := by
  refine ⟨?_, ?_, ?_⟩
  · intro x hx
    rw [filePath, folder_path, root_path, hx]
    simp [Except.map, pushPath, DEV_DEVICEID_PATH, FILENAME,
      String.append_assoc]
  · intro P hx hh
    rw [filePath, folder_path, root_path, hx, hh]
    simp [Except.map, pushPath, DEV_DEVICEID_PATH, FILENAME,
      String.append_assoc]
  · intro hx hh fs id
    have hroot : root_path e = .error .StorageError := by
      rw [root_path, hx, hh]
    have hfold : folder_path e = .error .StorageError := by
      rw [folder_path, hroot]; rfl
    have hfile : filePath e = .error .StorageError := by
      rw [filePath, hfold]; rfl
    constructor
    · rw [UnixStorage.retrieve, hfile]
    · rw [UnixStorage.store, hfold]

/-- Witness for C6 at concrete environments. -/
theorem claim_C6_witness :
    filePath ⟨some "/xdg", some "/home/u"⟩ =
      .ok "/xdg/Microsoft/DeveloperTools/deviceid" ∧
    filePath ⟨none, some "/home/u"⟩ =
      .ok "/home/u/.cache/Microsoft/DeveloperTools/deviceid" ∧
    UnixStorage.retrieve ⟨none, none⟩ ⟨[], [], []⟩ = .error .StorageError :=
  ⟨(claim_C6_location ⟨some "/xdg", some "/home/u"⟩).1 "/xdg" rfl,
   (claim_C6_location ⟨none, some "/home/u"⟩).2.1 "/home/u" rfl rfl,
   ((claim_C6_location ⟨none, none⟩).2.2 rfl rfl ⟨[], [], []⟩
     ⟨[]⟩).1⟩

/-- Claim C5: on a fresh environment (record file absent, resolvable
location, no read faults) get returns absent; get_or_generate returns the
generated id X and persists it; a following get returns X as present; and
a repeated get_or_generate (whatever fresh id it would generate) returns X
unchanged. -/
theorem claim_C5_scenario (e : UnixEnv) (fp : String) (fs : FS)
    (gen gen2 : DevDeviceId)
    (hfp : folder_path e = .ok fp)
    (hfresh : fs.fileContents (pushPath fp FILENAME) = none)
    (hnf : pushPath fp FILENAME ∉ fs.readFaults)
    (hgen : ValidUuid gen.uuid) :
    DevDeviceId.get e fs = .ok none ∧
    (DevDeviceId.get_or_generate e fs gen).1 = .ok gen ∧
    DevDeviceId.get e (DevDeviceId.get_or_generate e fs gen).2 =
      .ok (some gen) ∧
    (DevDeviceId.get_or_generate e (DevDeviceId.get_or_generate e fs gen).2
      gen2).1 = .ok gen := by
  have hp := filePath_of_folder e fp hfp
  have hret0 : UnixStorage.retrieve e fs = .ok none :=
    retrieve_absent e _ fs hp hfresh
  have hstore := store_fresh e fp fs gen hfp hfresh
  have hc1 : (fsWrite (create_dir_all fs fp) (pushPath fp FILENAME)
      (renderUuid gen.uuid)).fileContents (pushPath fp FILENAME) =
      some (renderUuid gen.uuid) := fsWrite_fileContents_self ..
  have hnf1 : pushPath fp FILENAME ∉ (fsWrite (create_dir_all fs fp)
      (pushPath fp FILENAME) (renderUuid gen.uuid)).readFaults := by
    rw [fsWrite_readFaults, create_dir_all_readFaults]; exact hnf
  have hret1 : UnixStorage.retrieve e (fsWrite (create_dir_all fs fp)
      (pushPath fp FILENAME) (renderUuid gen.uuid)) = .ok (some gen) :=
    retrieve_found e _ _ _ gen.uuid hp hc1 hnf1
      (try_parse_renderUuid gen.uuid hgen)
  have hgg : DevDeviceId.get_or_generate e fs gen =
      (.ok gen, fsWrite (create_dir_all fs fp) (pushPath fp FILENAME)
        (renderUuid gen.uuid)) := by
    rw [DevDeviceId.get_or_generate, hret0, hstore]
    simp [hret1]
  refine ⟨hret0, ?_, ?_, ?_⟩
  · rw [hgg]
  · rw [hgg, DevDeviceId.get]
    exact hret1
  · rw [hgg]
    rw [DevDeviceId.get_or_generate, hret1]

/-- Witness for C5 at a concrete fresh environment. -/
theorem claim_C5_witness :
    DevDeviceId.get ⟨none, some "/home/u"⟩ ⟨[], [], []⟩ = .ok none ∧
    (DevDeviceId.get_or_generate ⟨none, some "/home/u"⟩ ⟨[], [], []⟩
      ⟨List.replicate 16 0xab⟩).1 = .ok ⟨List.replicate 16 0xab⟩ ∧
    DevDeviceId.get ⟨none, some "/home/u"⟩
      (DevDeviceId.get_or_generate ⟨none, some "/home/u"⟩ ⟨[], [], []⟩
        ⟨List.replicate 16 0xab⟩).2 = .ok (some ⟨List.replicate 16 0xab⟩) ∧
    (DevDeviceId.get_or_generate ⟨none, some "/home/u"⟩
      (DevDeviceId.get_or_generate ⟨none, some "/home/u"⟩ ⟨[], [], []⟩
        ⟨List.replicate 16 0xab⟩).2 ⟨List.replicate 16 0xcd⟩).1 =
      .ok ⟨List.replicate 16 0xab⟩ :=
  claim_C5_scenario ⟨none, some "/home/u"⟩
    "/home/u/.cache/Microsoft/DeveloperTools" ⟨[], [], []⟩
    ⟨List.replicate 16 0xab⟩ ⟨List.replicate 16 0xcd⟩
    (by decide) rfl (by decide) (by decide)

theorem fsWrite_dirs (fs : FS) (p : String) (data : List Char) :
    (fsWrite fs p data).dirs = fs.dirs := rfl

theorem create_dir_all_dirs (fs : FS) (p : String) :
    (create_dir_all fs p).dirs = pathPrefixes p ++ fs.dirs := rfl

/-- Claim C4: the POSIX store first creates all missing parent directories
(never an error when they exist), fails with AlreadySet when the record
file exists, leaving its contents unchanged, and otherwise writes exactly
the canonical text of the id; two stores of different ids on a fresh
location leave the first value persisted, the second failing with
AlreadySet. -/
theorem claim_C4_store (e : UnixEnv) (fp : String) (fs : FS)
    (id id2 : DevDeviceId) (hfp : folder_path e = .ok fp) :
    (fs.fileContents (pushPath fp FILENAME) = none →
      (UnixStorage.store e fs id).1 = .ok () ∧
      (UnixStorage.store e fs id).2.fileContents (pushPath fp FILENAME) =
        some (renderUuid id.uuid) ∧
      (∀ q ∈ pathPrefixes fp, q ∈ (UnixStorage.store e fs id).2.dirs)) ∧
    (∀ data, fs.fileContents (pushPath fp FILENAME) = some data →
      (UnixStorage.store e fs id).1 = .error .AlreadySet ∧
      (UnixStorage.store e fs id).2.fileContents (pushPath fp FILENAME) =
        some data) ∧
    (fs.fileContents (pushPath fp FILENAME) = none →
      (UnixStorage.store e (UnixStorage.store e fs id).2 id2).1 =
        .error .AlreadySet ∧
      (UnixStorage.store e (UnixStorage.store e fs id).2 id2).2.fileContents
        (pushPath fp FILENAME) = some (renderUuid id.uuid)) := by
  refine ⟨?_, ?_, ?_⟩
  · intro hfr
    rw [store_fresh e fp fs id hfp hfr]
    refine ⟨rfl, fsWrite_fileContents_self .., ?_⟩
    intro q hq
    rw [fsWrite_dirs, create_dir_all_dirs]
    exact List.mem_append_left _ hq
  · intro data hc
    rw [store_already e fp fs id data hfp hc]
    exact ⟨rfl, hc⟩
  · intro hfr
    rw [store_fresh e fp fs id hfp hfr]
    have hc1 : (fsWrite (create_dir_all fs fp) (pushPath fp FILENAME)
        (renderUuid id.uuid)).fileContents (pushPath fp FILENAME) =
        some (renderUuid id.uuid) := fsWrite_fileContents_self ..
    rw [store_already e fp _ id2 _ hfp hc1]
    exact ⟨rfl, hc1⟩

/-- Witness for C4 at a concrete fresh location. -/
theorem claim_C4_witness :
    (UnixStorage.store ⟨none, some "/home/u"⟩ ⟨[], [], []⟩
      ⟨List.replicate 16 0xab⟩).1 = .ok () ∧
    (UnixStorage.store ⟨none, some "/home/u"⟩ ⟨[], [], []⟩
      ⟨List.replicate 16 0xab⟩).2.fileContents
      (pushPath "/home/u/.cache/Microsoft/DeveloperTools" FILENAME) =
      some (renderUuid (List.replicate 16 0xab)) ∧
    (UnixStorage.store ⟨none, some "/home/u"⟩
      (UnixStorage.store ⟨none, some "/home/u"⟩ ⟨[], [], []⟩
        ⟨List.replicate 16 0xab⟩).2 ⟨List.replicate 16 0xcd⟩).1 =
      .error .AlreadySet ∧
    (UnixStorage.store ⟨none, some "/home/u"⟩
      (UnixStorage.store ⟨none, some "/home/u"⟩ ⟨[], [], []⟩
        ⟨List.replicate 16 0xab⟩).2 ⟨List.replicate 16 0xcd⟩).2.fileContents
      (pushPath "/home/u/.cache/Microsoft/DeveloperTools" FILENAME) =
      some (renderUuid (List.replicate 16 0xab)) := by
  have h := claim_C4_store ⟨none, some "/home/u"⟩
    "/home/u/.cache/Microsoft/DeveloperTools" ⟨[], [], []⟩
    ⟨List.replicate 16 0xab⟩ ⟨List.replicate 16 0xcd⟩ (by decide)
  exact ⟨(h.1 rfl).1, (h.1 rfl).2.1, (h.2.2 rfl).1, (h.2.2 rfl).2⟩

/-- Claim C8: a persisted record whose raw text is not a syntactically
valid UUID makes get fail with BadFormat, and an underlying I/O fault on
the read makes retrieve (hence get) fail with StorageError; neither case
is repaired or retried. -/
theorem claim_C8_corruption (e : UnixEnv) (p : String) (fs : FS)
    (hp : filePath e = .ok p) :
    (∀ data, fs.fileContents p = some data → p ∉ fs.readFaults →
      try_parse data = none →
      DevDeviceId.get e fs = .error .BadUuidFormat) ∧
    (∀ data, fs.fileContents p = some data → p ∈ fs.readFaults →
      DevDeviceId.get e fs = .error .StorageError) := by
  constructor
  · intro data hc hnf hbad
    rw [DevDeviceId.get]
    exact retrieve_badformat e p fs data hp hc hnf hbad
  · intro data hc hf
    rw [DevDeviceId.get]
    exact retrieve_fault e p fs data hp hc hf

/-- Witness for C8: the literal text not-a-uuid, and a faulted read. -/
theorem claim_C8_witness :
    DevDeviceId.get ⟨none, some "/home/u"⟩
      ⟨[], [("/home/u/.cache/Microsoft/DeveloperTools/deviceid",
        ("not-a-uuid".toList))], []⟩ = .error .BadUuidFormat ∧
    DevDeviceId.get ⟨none, some "/home/u"⟩
      ⟨[], [("/home/u/.cache/Microsoft/DeveloperTools/deviceid",
        ("550e8400-e29b-41d4-a716-446655440000".toList))],
        ["/home/u/.cache/Microsoft/DeveloperTools/deviceid"]⟩ =
      .error .StorageError :=
  ⟨(claim_C8_corruption ⟨none, some "/home/u"⟩
      "/home/u/.cache/Microsoft/DeveloperTools/deviceid" _ (by decide)).1
      ("not-a-uuid".toList) rfl (by decide) (by decide),
   (claim_C8_corruption ⟨none, some "/home/u"⟩
      "/home/u/.cache/Microsoft/DeveloperTools/deviceid" _ (by decide)).2
      ("550e8400-e29b-41d4-a716-446655440000".toList) rfl (by decide)⟩

/-- Claim C10: a record file that exists but is empty makes retrieve fail
with BadFormat; only a missing file is reported as absent. -/
theorem claim_C10_empty (e : UnixEnv) (p : String) (fs : FS)
    (hp : filePath e = .ok p) (hnf : p ∉ fs.readFaults) :
    (fs.fileContents p = some [] →
      UnixStorage.retrieve e fs = .error .BadUuidFormat) ∧
    (fs.fileContents p = none → UnixStorage.retrieve e fs = .ok none) := by
  constructor
  · intro hc
    exact retrieve_badformat e p fs [] hp hc hnf (by decide)
  · intro hc
    exact retrieve_absent e p fs hp hc

/-- Witness for C10: a concrete empty file and a concrete missing file. -/
theorem claim_C10_witness :
    UnixStorage.retrieve ⟨none, some "/home/u"⟩
      ⟨[], [("/home/u/.cache/Microsoft/DeveloperTools/deviceid", [])], []⟩ =
      .error .BadUuidFormat ∧
    UnixStorage.retrieve ⟨none, some "/home/u"⟩ ⟨[], [], []⟩ = .ok none :=
  ⟨(claim_C10_empty ⟨none, some "/home/u"⟩
      "/home/u/.cache/Microsoft/DeveloperTools/deviceid" _ (by decide)
      (by decide)).1 rfl,
   (claim_C10_empty ⟨none, some "/home/u"⟩
      "/home/u/.cache/Microsoft/DeveloperTools/deviceid" _ (by decide)
      (by decide)).2 rfl⟩

theorem retrieve_with_registry_found (r : Registry) (v : List Char)
    (u : List Nat)
    (hv : r.getValue REGISTRY_PATH REGISTRY_KEY = some v)
    (hparse : try_parse v = some u) :
    retrieve_with_registry r = .ok (some ⟨u⟩) := by
  have hk : r.openReadKey REGISTRY_PATH = true := by
    rw [Registry.openReadKey]
    rw [Registry.getValue] at hv
    cases hl : r.data.lookup REGISTRY_PATH with
    | none => rw [hl] at hv; simp at hv
    | some kvs => simp
  simp only [retrieve_with_registry, hk, if_true, hv, hparse]

/-- Claim C9: both backends retrieve accepts the non-canonical UUID
textual variants (uppercase hyphenated, braced, urn-prefixed, and
32-digit unhyphenated) for every 16-byte value, returning the denoted
identifier, whose subsequent rendering is the canonical lowercase
hyphenated text. -/
theorem claim_C9_variants (e : UnixEnv) (p : String) (fs : FS)
    (u : List Nat)
    (hp : filePath e = .ok p) (hnf : p ∉ fs.readFaults)
    (hu : ValidUuid u) :
    (∀ v ∈ [upperText u, bracedText u, urnText u, simpleText u],
      fs.fileContents p = some v →
        UnixStorage.retrieve e fs = .ok (some ⟨u⟩)) ∧
    (∀ r : Registry,
      ∀ v ∈ [upperText u, bracedText u, urnText u, simpleText u],
      r.getValue REGISTRY_PATH REGISTRY_KEY = some v →
        retrieve_with_registry r = .ok (some ⟨u⟩)) ∧
    (DevDeviceId.mk u).render = renderUuid u := by
  have hpar : ∀ v ∈ [upperText u, bracedText u, urnText u, simpleText u],
      try_parse v = some u := by
    intro v hv
    simp only [List.mem_cons, List.not_mem_nil, or_false] at hv
    rcases hv with rfl | rfl | rfl | rfl
    · exact try_parse_upperText u hu
    · exact try_parse_bracedText u hu
    · exact try_parse_urnText u hu
    · exact try_parse_simpleText u hu
  refine ⟨?_, ?_, rfl⟩
  · intro v hv hc
    exact retrieve_found e p fs v u hp hc hnf (hpar v hv)
  · intro r v hv hval
    exact retrieve_with_registry_found r v u hval (hpar v hv)

/-- Witness for C9: concrete variant texts in both backends. -/
theorem claim_C9_witness :
    UnixStorage.retrieve ⟨none, some "/home/u"⟩
      ⟨[], [("/home/u/.cache/Microsoft/DeveloperTools/deviceid",
        upperText (List.replicate 16 0xab))], []⟩ =
      .ok (some ⟨List.replicate 16 0xab⟩) ∧
    retrieve_with_registry
      ⟨[("SOFTWARE\\Microsoft\\DeveloperTools",
        [("deviceid", bracedText (List.replicate 16 0xab))])]⟩ =
      .ok (some ⟨List.replicate 16 0xab⟩) :=
  ⟨(claim_C9_variants ⟨none, some "/home/u"⟩
      "/home/u/.cache/Microsoft/DeveloperTools/deviceid" _
      (List.replicate 16 0xab) (by decide) (by decide) (by decide)).1
      (upperText (List.replicate 16 0xab)) (by simp) rfl,
   (claim_C9_variants ⟨none, some "/home/u"⟩
      "/home/u/.cache/Microsoft/DeveloperTools/deviceid" ⟨[], [], []⟩
      (List.replicate 16 0xab) (by decide) (by decide) (by decide)).2.1
      ⟨[("SOFTWARE\\Microsoft\\DeveloperTools",
        [("deviceid", bracedText (List.replicate 16 0xab))])]⟩
      (bracedText (List.replicate 16 0xab)) (by simp) (by decide)⟩

/-- Counterexample to C3 as stated: a persisted file holding the canonical
hyphenated UUID text followed by a trailing newline makes retrieve fail
with BadUuidFormat — readers do not tolerate a trailing newline. -/
theorem claim_C3_counterexample :
    UnixStorage.retrieve ⟨none, some "/home/u"⟩
      ⟨[], [("/home/u/.cache/Microsoft/DeveloperTools/deviceid",
        ("550e8400-e29b-41d4-a716-446655440000\n".toList))], []⟩ =
      .error .BadUuidFormat := by
  decide

/-- Claim C3 amended: retrieve fails with BadFormat whenever the persisted
file is the canonical hyphenated UUID text followed by any non-empty
trailing suffix (in particular trailing whitespace or a trailing newline);
the parser requires the exact UUID text with nothing after it. -/
theorem claim_C3_amended (e : UnixEnv) (p : String) (fs : FS) (u : List Nat)
    (suf : List Char) (hp : filePath e = .ok p) (hnf : p ∉ fs.readFaults)
    (hu : ValidUuid u) (hs : suf ≠ [])
    (hc : fs.fileContents p = some (renderUuid u ++ suf)) :
    UnixStorage.retrieve e fs = .error .BadUuidFormat :=
  retrieve_badformat e p fs _ hp hc hnf (try_parse_render_append u hu suf hs)

/-- Witness for the amended C3 at a concrete trailing-newline file. -/
theorem claim_C3_witness :
    UnixStorage.retrieve ⟨none, some "/home/u"⟩
      ⟨[], [("/home/u/.cache/Microsoft/DeveloperTools/deviceid",
        renderUuid (List.replicate 16 0xab) ++ ['\n'])], []⟩ =
      .error .BadUuidFormat :=
  claim_C3_amended ⟨none, some "/home/u"⟩
    "/home/u/.cache/Microsoft/DeveloperTools/deviceid" _
    (List.replicate 16 0xab) ['\n'] (by decide) (by decide) (by decide)
    (by decide) rfl

/-- The projection of the state-passing get_or_generate onto the outcomes
of its three backend calls coincides with the abstract control flow: the
flow function is exactly the code path of lib.rs. -/
theorem get_or_generate_eq_flow (e : UnixEnv) (fs : FS) (gen : DevDeviceId) :
    (DevDeviceId.get_or_generate e fs gen).1 =
      get_or_generate_flow (UnixStorage.retrieve e fs) gen
        (UnixStorage.store e fs gen).1
        (UnixStorage.retrieve e (UnixStorage.store e fs gen).2) := by
  rw [DevDeviceId.get_or_generate, get_or_generate_flow.eq_def]
  cases hr : UnixStorage.retrieve e fs with
  | error er => rfl
  | ok o =>
    cases o with
    | some id => rfl
    | none =>
      cases hst : UnixStorage.store e fs gen with
      | mk st fs1 =>
        cases st with
        | error er => rfl
        | ok _ =>
          cases hr2 : UnixStorage.retrieve e fs1 with
          | error er => simp [hr2]
          | ok o2 => simp [hr2]

/-- Counterexample to C1 as stated: in a run whose first retrieve returns
absent, whose store fails with AlreadySet, and in which the subsequent
retrieve would deliver the race winner value, get_or_generate returns the
AlreadySet error — the store error is propagated, not recovered from. -/
theorem claim_C1_counterexample :
    get_or_generate_flow (.ok none) ⟨List.replicate 16 0xaa⟩
      (.error .AlreadySet) (.ok (some ⟨List.replicate 16 0xbb⟩)) =
      .error .AlreadySet ∧
    (.error .AlreadySet : Except Error DevDeviceId) ≠
      .ok ⟨List.replicate 16 0xbb⟩ :=
  ⟨rfl, by decide⟩

/-- Claim C1 amended: when the first retrieve returns absent,
get_or_generate propagates every store error — AlreadySet included — as
its own result; the second retrieve runs only after a successful store,
and then its persisted value (or the generated id, when it reports
absent) is returned. -/
theorem claim_C1_amended (gen : DevDeviceId) (er : Error)
    (r2 : Except Error (Option DevDeviceId)) (w : DevDeviceId) :
    get_or_generate_flow (.ok none) gen (.error er) r2 = .error er ∧
    get_or_generate_flow (.ok none) gen (.ok ()) (.ok (some w)) = .ok w ∧
    get_or_generate_flow (.ok none) gen (.ok ()) (.ok none) = .ok gen :=
  ⟨rfl, rfl, rfl⟩

/-- Counterexample to C2 as stated: with a value already persisted under
the fixed path and value name, the Windows store succeeds — it does not
fail with AlreadySet — and the persisted value afterwards is the newly
written one, not the previous one. -/
theorem claim_C2_counterexample :
    (store_with_registry ⟨[("SOFTWARE\\Microsoft\\DeveloperTools",
      [("deviceid", renderUuid (List.replicate 16 0xaa))])]⟩
      ⟨List.replicate 16 0xbb⟩).1 = .ok () ∧
    (store_with_registry ⟨[("SOFTWARE\\Microsoft\\DeveloperTools",
      [("deviceid", renderUuid (List.replicate 16 0xaa))])]⟩
      ⟨List.replicate 16 0xbb⟩).2.getValue REGISTRY_PATH REGISTRY_KEY =
      some (renderUuid (List.replicate 16 0xbb)) ∧
    renderUuid (List.replicate 16 0xbb) ≠
      renderUuid (List.replicate 16 0xaa) :=
  ⟨rfl, by decide, by decide⟩

/-- Claim C2 amended: the registry-backed store performs no read-check: it
open-creates the key and writes unconditionally, succeeding on every
registry state and overwriting any existing value; after two stores with
different identifiers the persisted value is the second one written, and
AlreadySet is never produced. -/
theorem claim_C2_amended (r : Registry) (id1 id2 : DevDeviceId) :
    (store_with_registry r id1).1 = .ok () ∧
    (store_with_registry r id1).2.getValue REGISTRY_PATH REGISTRY_KEY =
      some (renderUuid id1.uuid) ∧
    (store_with_registry (store_with_registry r id1).2 id2).1 = .ok () ∧
    (store_with_registry (store_with_registry r id1).2 id2).2.getValue
      REGISTRY_PATH REGISTRY_KEY = some (renderUuid id2.uuid) :=
  ⟨rfl, getValue_setValue_self _ _ _ _, rfl, getValue_setValue_self _ _ _ _⟩

end DeviceId
